import Mathlib

/-!
Verification of the WAHA WhatsApp REST gateway (Python sources under
`api/` and `waha_automator.py`) against its natural-language specification.
The Python code is shallowly embedded: pure helpers become Lean functions,
HTTP calls and random draws become explicit parameters describing the
upstream outcome, and machine integers become `Nat`.
-/

namespace Waha

/-- Python's `needle in haystack` substring test, on lists of characters. -/
def isSubstring (needle : List Char) : List Char → Bool
  | [] => needle == []
  | c :: rest => needle.isPrefixOf (c :: rest) || isSubstring needle rest

/-- Python's `s.split(sep)` for a one-character separator: splits at every
occurrence of the separator, keeping empty segments. -/
def pySplit (sep : Char) : List Char → List (List Char)
  | [] => [[]]
  | c :: rest =>
    if c == sep then [] :: pySplit sep rest
    else
      match pySplit sep rest with
      | [] => [[c]]
      | s :: ss => (c :: s) :: ss

/-- Stable insertion: place `x` before the first element `y` with `le x y`.
This is the insertion step of a stable sort matching Python's `list.sort`
(equal keys keep their original relative order). -/
def insertLe (le : α → α → Bool) (x : α) : List α → List α
  | [] => [x]
  | y :: ys => if le x y then x :: y :: ys else y :: insertLe le x ys

/-- Stable insertion sort, the model of Python's `list.sort(key=..., reverse=...)`.
Python's sort is stable (also with `reverse=True`); `le a b` reads "`a` may be
placed before `b`". -/
def isort (le : α → α → Bool) : List α → List α
  | [] => []
  | x :: xs => insertLe le x (isort le xs)

/-- Lexicographic comparison of two character lists by code point, the model of
Python's string comparison used by `list.sort` on string keys. -/
def lexLe : List Char → List Char → Bool
  | [], _ => true
  | _ :: _, [] => false
  | a :: as, b :: bs => if a < b then true else if b < a then false else lexLe as bs

/-! SHA-256 and HMAC-SHA256 over byte lists, the functions behind Python's
`hashlib.sha256` and `hmac.new(secret, payload, hashlib.sha256)` used by the
webhook signature check. All 32-bit arithmetic is `Nat` reduced mod `2^32`. -/

/-- Truncate to a 32-bit word. -/
def w32 (n : Nat) : Nat := n % 4294967296

/-- Truncate to a byte. -/
def w8 (n : Nat) : Nat := n % 256

/-- Right-rotation of a 32-bit word. -/
def rotr32 (n x : Nat) : Nat := w32 ((x >>> n) ||| (x <<< (32 - n)))

def chWord (x y z : Nat) : Nat := (x &&& y) ^^^ ((x ^^^ 4294967295) &&& z)

def majWord (x y z : Nat) : Nat := (x &&& y) ^^^ (x &&& z) ^^^ (y &&& z)

def bsig0 (x : Nat) : Nat := rotr32 2 x ^^^ rotr32 13 x ^^^ rotr32 22 x

def bsig1 (x : Nat) : Nat := rotr32 6 x ^^^ rotr32 11 x ^^^ rotr32 25 x

def ssig0 (x : Nat) : Nat := rotr32 7 x ^^^ rotr32 18 x ^^^ (x >>> 3)

def ssig1 (x : Nat) : Nat := rotr32 17 x ^^^ rotr32 19 x ^^^ (x >>> 10)

/-- The 64 SHA-256 round constants, written in decimal. -/
def sha256K : List Nat :=
  [1116352408, 1899447441, 3049323471, 3921009573,
   961987163, 1508970993, 2453635748, 2870763221,
   3624381080, 310598401, 607225278, 1426881987,
   1925078388, 2162078206, 2614888103, 3248222580,
   3835390401, 4022224774, 264347078, 604807628,
   770255983, 1249150122, 1555081692, 1996064986,
   2554220882, 2821834349, 2952996808, 3210313671,
   3336571891, 3584528711, 113926993, 338241895,
   666307205, 773529912, 1294757372, 1396182291,
   1695183700, 1986661051, 2177026350, 2456956037,
   2730485921, 2820302411, 3259730800, 3345764771,
   3516065817, 3600352804, 4094571909, 275423344,
   430227734, 506948616, 659060556, 883997877,
   958139571, 1322822218, 1537002063, 1747873779,
   1955562222, 2024104815, 2227730452, 2361852424,
   2428436474, 2756734187, 3204031479, 3329325298]

structure Sha256Hash where
  a : Nat
  b : Nat
  c : Nat
  d : Nat
  e : Nat
  f : Nat
  g : Nat
  h : Nat

/-- The eight initial hash words of SHA-256, in decimal. -/
def sha256Init : Sha256Hash :=
  ⟨1779033703, 3144134277, 1013904242, 2773480762,
   1359893119, 2600822924, 528734635, 1541459225⟩

def sha256Round (st : Sha256Hash) (ki wi : Nat) : Sha256Hash :=
  let t1 := w32 (st.h + bsig1 st.e + chWord st.e st.f st.g + ki + wi)
  let t2 := w32 (bsig0 st.a + majWord st.a st.b st.c)
  ⟨w32 (t1 + t2), st.a, st.b, st.c, w32 (st.d + t1), st.e, st.f, st.g⟩

/-- The 64-word message schedule of one SHA-256 block of 16 words. -/
def msgSchedule (block : List Nat) : List Nat :=
  (List.range 64).foldl
    (fun w i =>
      if i < 16 then w ++ [block.getD i 0]
      else
        w ++ [w32 (ssig1 (w.getD (i - 2) 0) + w.getD (i - 7) 0 +
                   ssig0 (w.getD (i - 15) 0) + w.getD (i - 16) 0)])
    []

def sha256Block (st : Sha256Hash) (block : List Nat) : Sha256Hash :=
  let fin := (sha256K.zip (msgSchedule block)).foldl
    (fun s kw => sha256Round s kw.1 kw.2) st
  ⟨w32 (st.a + fin.a), w32 (st.b + fin.b), w32 (st.c + fin.c), w32 (st.d + fin.d),
   w32 (st.e + fin.e), w32 (st.f + fin.f), w32 (st.g + fin.g), w32 (st.h + fin.h)⟩

/-- Big-endian packing of bytes into 32-bit words. -/
def bytesToWords : List Nat → List Nat
  | b0 :: b1 :: b2 :: b3 :: rest =>
    (b0 * 16777216 + b1 * 65536 + b2 * 256 + b3) :: bytesToWords rest
  | _ => []

/-- SHA-256 padding: a `0x80` byte, zeros, then the bit length as 8 bytes
big-endian, reaching a multiple of 64 bytes. -/
def sha256Pad (msg : List Nat) : List Nat :=
  let bitLen := msg.length * 8
  let padZeros := (119 - msg.length % 64) % 64
  msg ++ [128] ++ List.replicate padZeros 0 ++
    [w8 (bitLen >>> 56), w8 (bitLen >>> 48), w8 (bitLen >>> 40), w8 (bitLen >>> 32),
     w8 (bitLen >>> 24), w8 (bitLen >>> 16), w8 (bitLen >>> 8), w8 bitLen]

/-- Split a byte list into 64-byte chunks (the padded message length is always
a multiple of 64). -/
def chunks64 (l : List Nat) : List (List Nat) :=
  (List.range ((l.length + 63) / 64)).map fun i => (l.drop (64 * i)).take 64

def wordToBytes (x : Nat) : List Nat :=
  [w8 (x >>> 24), w8 (x >>> 16), w8 (x >>> 8), w8 x]

/-- SHA-256 of a byte list, producing the 32-byte digest. -/
def sha256 (msg : List Nat) : List Nat :=
  let fin := (chunks64 (sha256Pad msg)).foldl
    (fun st chunk => sha256Block st (bytesToWords chunk)) sha256Init
  wordToBytes fin.a ++ wordToBytes fin.b ++ wordToBytes fin.c ++ wordToBytes fin.d ++
    wordToBytes fin.e ++ wordToBytes fin.f ++ wordToBytes fin.g ++ wordToBytes fin.h

/-- HMAC key normalization: hash keys longer than the 64-byte block, then
right-pad with zeros to exactly 64 bytes. -/
def hmacKeyBlock (key : List Nat) : List Nat :=
  let k0 := if 64 < key.length then sha256 key else key
  k0 ++ List.replicate (64 - k0.length) 0

/-- HMAC-SHA256 as computed by `hmac.new(secret, payload, hashlib.sha256)`. -/
def hmacSha256 (key msg : List Nat) : List Nat :=
  let k := hmacKeyBlock key
  sha256 ((k.map fun b => b ^^^ 92) ++ sha256 ((k.map fun b => b ^^^ 54) ++ msg))

/-- One lowercase hex digit, the character `"0123456789abcdef"[m]`. -/
def hexCharAux : Nat → Char
  | 0 => '0' | 1 => '1' | 2 => '2' | 3 => '3' | 4 => '4' | 5 => '5' | 6 => '6' | 7 => '7'
  | 8 => '8' | 9 => '9' | 10 => 'a' | 11 => 'b' | 12 => 'c' | 13 => 'd' | 14 => 'e' | _ => 'f'

def hexChar (n : Nat) : Char := hexCharAux (n % 16)

/-- Lowercase hex encoding of a byte list, Python's `.hexdigest()`. -/
def hexDigest (bytes : List Nat) : List Char :=
  (bytes.map fun b => [hexChar (b / 16), hexChar b]).flatten

/-- The expected signature header marker `"sha256="`. -/
def sigMarker : List Char := "sha256=".toList

/-- Shallow embedding of `_verify_webhook_signature(payload, signature, secret)`
from `api/routes/webhook.py`: require the `sha256=` marker, take element 1 of
the Python split of the header on `"="`, and compare (constant-time in the
source, plain equality here) with the hex HMAC-SHA256 digest. The secret
arrives already UTF-8 encoded, as `secret.encode('utf-8')` produces it. -/
def verifyWebhookSignature (payload : List Nat) (signature : List Char)
    (secret : List Nat) : Bool :=
  if sigMarker.isPrefixOf signature then
    ((pySplit '=' signature).getD 1 []) == hexDigest (hmacSha256 secret payload)
  else false

/-- The signature string `"sha256=" ++ hex(HMAC_SHA256(secret, payload))` that
a well-behaved webhook sender attaches. -/
def canonicalSignature (secret payload : List Nat) : List Char :=
  sigMarker ++ hexDigest (hmacSha256 secret payload)

/-! The keyword auto-reply matcher of `api/routes/webhook.py`
(`_get_auto_response`, `_get_response_template`). Python 3.7+ dictionaries
iterate in insertion order, so the category dictionary is an ordered
association list here. -/

/-- Python's `str.lower()`, restricted to the ASCII range the keyword tables
live in (`Char.toLower` lowers exactly the ASCII uppercase letters). -/
def pyLower (s : String) : String := String.mk (s.toList.map Char.toLower)

/-- The ordered category/keyword table of `_get_auto_response`. -/
def autoResponses : List (String × List String) :=
  [("greeting", ["hello", "hi", "halo", "hai", "assalamualaikum", "selamat pagi",
                 "selamat siang", "selamat sore", "selamat malam"]),
   ("thanks", ["thank", "thanks", "terima kasih", "makasih"]),
   ("goodbye", ["bye", "goodbye", "selamat tinggal", "sampai jumpa"]),
   ("help", ["help", "bantuan", "tolong"]),
   ("status", ["status", "how are you", "apa kabar"]),
   ("business", ["price", "harga", "produk", "layanan", "booking"]),
   ("location", ["lokasi", "alamat", "dimana", "address"]),
   ("contact", ["contact", "kontak", "hubungi", "telp", "phone"])]

/-- The template table of `_get_response_template` (the source file stores the
emoji bytes in a garbled single-byte decoding; the exact code points of the
source file are reproduced). -/
def responseTemplates : List (String × String) :=
  [("greeting", "Halo! Selamat datang di layanan kami. Ada yang bisa kami bantu? ðŸ™"),
   ("thanks", "Sama-sama! Senang bisa membantu Anda. ðŸ˜Š"),
   ("goodbye", "Sampai jumpa! Semoga harimu menyenangkan. ðŸ‘‹"),
   ("help", "Kami siap membantu! Silakan jelaskan kebutuhan Anda."),
   ("status", "Kami baik-baik saja! Bagaimana dengan Anda? ðŸ˜Š"),
   ("business", "Untuk informasi harga dan layanan, silakan hubungi tim sales kami."),
   ("location", "Kantor kami berlokasi di Jl. Contoh No. 123, Jakarta. ðŸ“"),
   ("contact", "Hubungi kami di: ðŸ“ž 021-1234567 atau ðŸ“± wa.me/628123456789"),
   ("default", "Terima kasih atas pesan Anda. Kami akan segera merespons.")]

/-- `_get_response_template(category)`: `templates.get(category, templates["default"])`. -/
def getResponseTemplate (category : String) : String :=
  match responseTemplates.lookup category with
  | some t => t
  | none => "Terima kasih atas pesan Anda. Kami akan segera merespons."

/-- `_get_auto_response(incoming_message, chat_id)`: lower-case the input, scan
the categories in table order, return the template of the first category one of
whose keywords occurs as a substring, else the default template. The source
returns `Optional[str]` but every path yields a string. -/
def getAutoResponse (incoming : String) : String :=
  let message := pyLower incoming
  match autoResponses.find? (fun ck =>
      ck.2.any fun kw => isSubstring kw.toList message.toList) with
  | some ck => getResponseTemplate ck.1
  | none => getResponseTemplate "default"

/-! The POST `/webhook` pipeline of `api/routes/webhook.py`. FastAPI first
validates the `WebhookEvent` body — the `event` field carries the regex
`^(message|messageAck|sessionStatus|qrCode|disconnected)$`, so an unknown tag
is refused with HTTP 422 before `webhook_handler` runs. Inside the handler,
a failed signature check raises `HTTPException(403)` and an unknown event tag
raises `HTTPException(400, code=UNKNOWN_EVENT)`; both pass through the
`except HTTPException: raise` arm. Only other exceptions reach the generic
handler, which deliberately answers HTTP 200 with `success: false`. -/

/-- The five recognized webhook event tags. -/
def webhookEventTags : List String :=
  ["message", "messageAck", "sessionStatus", "qrCode", "disconnected"]

/-- An HTTP reply as the webhook caller observes it: status code, the
`success` flag of the body envelope (absent for the framework's own validation
error body), and the error `code` field when present. -/
structure WebhookReply where
  status : Nat
  success : Option Bool
  code : Option String
deriving DecidableEq, Repr

/-- Outcome of running the matched per-event handler body: it either returns a
result mapping or raises a generic (non-HTTP) exception. -/
inductive HandlerRun where
  | ok
  | raisesExn
deriving DecidableEq, Repr

/-- Shallow embedding of `webhook_handler`: signature check (reject with 403
when a secret is configured, a header is present and the digests mismatch),
then dispatch on the event tag; an unknown tag raises 400 `UNKNOWN_EVENT`;
generic exceptions from handlers become a 200 envelope with `success: false`. -/
def webhookHandler (eventTag : String) (secretConfigured sigHeaderPresent sigValid : Bool)
    (run : HandlerRun) : WebhookReply :=
  if secretConfigured && sigHeaderPresent && !sigValid then
    ⟨403, some false, some "INVALID_WEBHOOK_SIGNATURE"⟩
  else if webhookEventTags.contains eventTag then
    match run with
    | .ok => ⟨200, some true, none⟩
    | .raisesExn => ⟨200, some false, some "WEBHOOK_PROCESSING_ERROR"⟩
  else ⟨400, some false, some "UNKNOWN_EVENT"⟩

/-- The whole POST `/webhook` pipeline: FastAPI body validation of the
`WebhookEvent` model (the `event` regex) and then the handler. -/
def webhookPost (eventTag : String) (secretConfigured sigHeaderPresent sigValid : Bool)
    (run : HandlerRun) : WebhookReply :=
  if webhookEventTags.contains eventTag then
    webhookHandler eventTag secretConfigured sigHeaderPresent sigValid run
  else ⟨422, none, none⟩

/-! Mock-data generators. `_generate_mock_messages` and
`_generate_mock_contacts` live in `api/core/waha_client.py`;
`generate_mock_chats` lives in `waha_automator.py`. Every `random.*` draw and
`datetime`-derived timestamp is abstracted as a function of the loop index. -/

/-- The fixed message text pool of `_generate_mock_messages`. -/
def sampleMessages : List String :=
  ["Halo, bagaimana kabarnya?", "Baik-baik saja, terima kasih!",
   "Apakah project sudah selesai?", "Sudah, tinggal testing final",
   "Oke, saya cek dulu ya", "Siap, saya tunggu update nya",
   "Documents sudah saya kirim", "Terima kasih atas bantuannya",
   "Sampai jumpa besok!", "Have a great day!"]

/-- A message record; `msgFrom`/`msgTo` stand for the Python keys `from`/`to`
(`from` is reserved in Lean). -/
structure Message where
  id : String
  timestamp : Nat
  msgFrom : String
  msgTo : String
  body : String
  fromMe : Bool
  hasMedia : Bool
  mediaType : Option String
  mediaCaption : Option String
  ack : Nat
deriving DecidableEq, Repr

/-- The per-index random draws of `_generate_mock_messages`:
`random.choice([True, False])`, the index drawn by
`random.choice(sample_messages)`, `random.randint(1, 3)`, and the
`datetime.utcnow() - timedelta(hours=i*2)` timestamp. -/
structure MsgRandom where
  fromMeAt : Nat → Bool
  bodyIdxAt : Nat → Nat
  ackAt : Nat → Nat
  tsAt : Nat → Nat

/-- The gateway's own chat id appearing in the mock messages. -/
def selfChatId : String := "6282243673017@c.us"

def mockMessageAt (chatId : String) (r : MsgRandom) (i : Nat) : Message :=
  let ts := r.tsAt i
  let isFromMe := r.fromMeAt i
  { id := "mock_msg_" ++ toString i ++ "_" ++ toString ts
    timestamp := ts
    msgFrom := if isFromMe then selfChatId else chatId
    msgTo := if isFromMe then chatId else selfChatId
    body := sampleMessages.getD (r.bodyIdxAt i) ""
    fromMe := isFromMe
    hasMedia := false
    mediaType := none
    mediaCaption := none
    ack := r.ackAt i }

structure MockMessagesResult where
  messages : List Message
  total : Nat
  has_more : Bool
deriving DecidableEq, Repr

/-- `_generate_mock_messages(chat_id, limit)`: a loop over
`range(min(limit, 20))`, then `total = len(messages)` and
`has_more = len(messages) >= limit`. No offset parameter exists. The
automator's `generate_mock_data` is the same computation (its flag is spelled
`hasMore`). -/
def generateMockMessages (chatId : String) (limit : Nat) (r : MsgRandom) :
    MockMessagesResult :=
  let messages := (List.range (min limit 20)).map (mockMessageAt chatId r)
  { messages := messages
    total := messages.length
    has_more := decide (limit ≤ messages.length) }

structure Contact where
  id : String
  name : String
  notifyName : String
  isGroup : Bool
  isWAContact : Bool
  pushname : String
  profilePicUrl : Option String
  lastMessage : String
  lastMessageTime : Nat
  unreadCount : Nat
deriving DecidableEq, Repr

/-- The eight fixed sample contacts of `_generate_mock_contacts`, as
(id, name, notifyName, isGroup); every entry has `isWAContact = True`. -/
def sampleContacts : List (String × String × String × Bool) :=
  [("62818114411@c.us", "Pak Feri Coworker", "Pak Feri", false),
   ("6281339691260@c.us", "Mas Feri", "Mas Feri", false),
   ("120363419906557011@g.us", "Developer Coworker", "Developer Coworker", true),
   ("628988146713@c.us", "Senseiiii", "Senseii", false),
   ("120363419759004678@g.us", "Kampus dev team", "Kampus dev team", true),
   ("628156700525@c.us", "Om Haibannn Wail", "Om Haiban", false),
   ("6289505982878@c.us", "Sabil", "Sabil", false),
   ("6282243673017@c.us", "Me", "Me", false)]

/-- The per-index random draws of `_generate_mock_contacts`: the
`datetime.utcnow().timestamp() - random.randint(0, 86400)` milliseconds value
and `random.randint(0, 5)`. -/
structure ContactRandom where
  lastTimeAt : Nat → Nat
  unreadAt : Nat → Nat

/-- The enriched full contact list built before sorting and slicing. -/
def mockContactsAll (r : ContactRandom) : List Contact :=
  sampleContacts.mapIdx fun i c =>
    { id := c.1, name := c.2.1, notifyName := c.2.2.1, isGroup := c.2.2.2,
      isWAContact := true, pushname := c.2.1, profilePicUrl := none,
      lastMessage := "Last message", lastMessageTime := r.lastTimeAt i,
      unreadCount := r.unreadAt i }

/-- Order for a `Nat` sort key under `reverse=reverse_order`. -/
def natKeyLe (rev : Bool) (x y : Nat) : Bool :=
  if rev then decide (y ≤ x) else decide (x ≤ y)

/-- Order for a string sort key under `reverse=reverse_order`. -/
def strKeyLe (rev : Bool) (x y : String) : Bool :=
  if rev then lexLe y.toList x.toList else lexLe x.toList y.toList

def contactStrKey (sortBy : String) (c : Contact) : String :=
  if sortBy == "name" then c.name
  else if sortBy == "id" then c.id
  else if sortBy == "notifyName" then c.notifyName
  else if sortBy == "pushname" then c.pushname
  else c.lastMessage

/-- The sorting step of `_generate_mock_contacts`: a string-key branch for
`name`/`id`/`notifyName`/`pushname`/`lastMessage`, a numeric branch for
`unreadCount`, otherwise no sort; `reverse_order = sort_order.lower() == 'desc'`.
Python's `list.sort` is stable, hence the stable insertion sort. The identical
dispatch in the automator's `generate_mock_contacts` adds a `lastMessageTime`
branch not claimed here. -/
def sortMockContacts (sortBy sortOrder : String) (l : List Contact) : List Contact :=
  let rev := pyLower sortOrder == "desc"
  if (["name", "id", "notifyName", "pushname", "lastMessage"] : List String).contains sortBy then
    isort (fun a b => strKeyLe rev (contactStrKey sortBy a) (contactStrKey sortBy b)) l
  else if sortBy == "unreadCount" then
    isort (fun a b => natKeyLe rev a.unreadCount b.unreadCount) l
  else l

structure MockContactsResult where
  contacts : List Contact
  total : Nat
  limit : Nat
  offset : Nat
  hasMore : Bool
deriving DecidableEq, Repr

/-- `_generate_mock_contacts(limit, offset, sort_by, sort_order)`: build the
eight enriched contacts, sort, then slice with `safe_offset = min(offset,
total)`, `contacts = all[safe_offset : safe_offset+limit]`, and
`has_more = (safe_offset + limit) < total`. -/
def generateMockContacts (limit offset : Nat) (sortBy sortOrder : String)
    (r : ContactRandom) : MockContactsResult :=
  let allContacts := sortMockContacts sortBy sortOrder (mockContactsAll r)
  let total := allContacts.length
  let safeOffset := min offset total
  { contacts := (allContacts.drop safeOffset).take limit
    total := total
    limit := limit
    offset := safeOffset
    hasMore := decide (safeOffset + limit < total) }

/-- A chat record of `generate_mock_chats`. The Python dicts are heterogeneous
(groups carry `participants`, individuals carry `isOnline`); one record with
both fields models them. -/
structure Chat where
  id : String
  name : String
  lastMessage : String
  timestamp : Nat
  unreadCount : Nat
  isGroup : Bool
  isOnline : Bool
  participants : Nat
  pushname : String
  profilePicUrl : Option String
  lastMessageTime : Nat
  isMyContact : Bool
  isWAContact : Bool
  isArchived : Bool
  isPinned : Bool
  isMuted : Bool
deriving DecidableEq, Repr

/-- The random draws of `generate_mock_chats`, one value per loop index. -/
structure ChatRandom where
  baseTsAt : Nat → Nat
  groupIdSuffixAt : Nat → Nat
  groupNameAt : Nat → String
  lastMessageAt : Nat → String
  tsAt : Nat → Nat
  unreadAt : Nat → Nat
  participantsAt : Nat → Nat
  phoneAt : Nat → Nat
  firstNameAt : Nat → String
  lastNameAt : Nat → String
  onlineAt : Nat → Bool

/-- The chat dict built for loop index `i` before the compatibility-field
update: the first five indices use `base_sample_chats`; from there every
`i % 3 == 0` index is a group chat, the rest are individual chats. -/
def mockChatCore (r : ChatRandom) (i : Nat) : Chat :=
  if i == 0 then
    ⟨"62818114411@c.us", "Pak Feri Coworker", "Oke, saya cek dulu ya",
     r.baseTsAt 0, 2, false, true, 0, "", none, 0, false, false, false, false, false⟩
  else if i == 1 then
    ⟨"6281339691260@c.us", "Mas Feri", "Sudah, tinggal testing final",
     r.baseTsAt 1, 0, false, false, 0, "", none, 0, false, false, false, false, false⟩
  else if i == 2 then
    ⟨"120363419906557011@g.us", "Developer Coworker", "Documents sudah saya kirim",
     r.baseTsAt 2, 15, true, false, 25, "", none, 0, false, false, false, false, false⟩
  else if i == 3 then
    ⟨"628988146713@c.us", "Senseiiii", "Terima kasih atas bantuannya",
     r.baseTsAt 3, 1, false, true, 0, "", none, 0, false, false, false, false, false⟩
  else if i == 4 then
    ⟨"120363419759004678@g.us", "Kampus dev team", "Have a great day!",
     r.baseTsAt 4, 0, true, false, 12, "", none, 0, false, false, false, false, false⟩
  else if i % 3 == 0 then
    ⟨"1203634199" ++ toString (r.groupIdSuffixAt i) ++ "@g.us",
     r.groupNameAt i ++ " " ++ toString ((i - 5) / 3 + 1),
     r.lastMessageAt i, r.tsAt i, r.unreadAt i, true, false, r.participantsAt i,
     "", none, 0, false, false, false, false, false⟩
  else
    ⟨"628" ++ toString (r.phoneAt i) ++ "@c.us",
     r.firstNameAt i ++ " " ++ r.lastNameAt i,
     r.lastMessageAt i, r.tsAt i, r.unreadAt i, false, r.onlineAt i, 0,
     "", none, 0, false, false, false, false, false⟩

/-- The `chat.update({...})` compatibility fields applied to every chat. -/
def enrichChat (c : Chat) : Chat :=
  { c with pushname := c.name, profilePicUrl := none,
           lastMessageTime := c.timestamp * 1000,
           isMyContact := true, isWAContact := true,
           isArchived := false, isPinned := false, isMuted := false }

/-- The full generated chat list: `total_needed = limit + offset` records. -/
def mockChatsAll (r : ChatRandom) (totalNeeded : Nat) : List Chat :=
  (List.range totalNeeded).map fun i => enrichChat (mockChatCore r i)

def chatStrKey (sortBy : String) (c : Chat) : String :=
  if sortBy == "name" then c.name
  else if sortBy == "id" then c.id
  else if sortBy == "lastMessage" then c.lastMessage
  else c.pushname

/-- The sorting dispatch of `generate_mock_chats`. -/
def sortMockChats (sortBy sortOrder : String) (l : List Chat) : List Chat :=
  let rev := pyLower sortOrder == "desc"
  if (["name", "id", "lastMessage", "pushname"] : List String).contains sortBy then
    isort (fun a b => strKeyLe rev (chatStrKey sortBy a) (chatStrKey sortBy b)) l
  else if sortBy == "unreadCount" then
    isort (fun a b => natKeyLe rev a.unreadCount b.unreadCount) l
  else if sortBy == "timestamp" then
    isort (fun a b => natKeyLe rev a.timestamp b.timestamp) l
  else if sortBy == "lastMessageTime" then
    isort (fun a b => natKeyLe rev a.lastMessageTime b.lastMessageTime) l
  else l

structure MockChatsResult where
  chats : List Chat
  total : Nat
  limit : Nat
  offset : Nat
  hasMore : Bool
  page : Nat
  total_pages : Nat
deriving DecidableEq, Repr

/-- `generate_mock_chats(limit, offset, sort_by, sort_order)`: generate
`limit + offset` chats, sort, then slice with `safe_offset = min(offset,
total)` and `has_more = (safe_offset + limit) < total`. -/
def generateMockChats (limit offset : Nat) (sortBy sortOrder : String)
    (r : ChatRandom) : MockChatsResult :=
  let allChats := sortMockChats sortBy sortOrder (mockChatsAll r (limit + offset))
  let total := allChats.length
  let safeOffset := min offset total
  { chats := (allChats.drop safeOffset).take limit
    total := total
    limit := limit
    offset := safeOffset
    hasMore := decide (safeOffset + limit < total)
    page := if 0 < limit then safeOffset / limit + 1 else 1
    total_pages := if 0 < limit then (total + limit - 1) / limit else 1 }

/-! The `WahaResponse` envelope and the `WahaClient` operations of
`api/core/waha_client.py`. Each HTTP interaction is abstracted by an outcome
value describing what the upstream did; a JSON body the code passes through
verbatim is a type parameter. -/

structure WahaResponse (α : Type) where
  success : Bool
  data : Option α := none
  error : Option String := none
  code : Option String := none

/-- The spec's envelope invariant: `success=false` implies `data` absent and
`error` present; `success=true` implies `error` absent. -/
def wahaInvariant {α : Type} (r : WahaResponse α) : Prop :=
  (r.success = false → r.data = none ∧ r.error.isSome = true) ∧
  (r.success = true → r.error = none)

/-- What the two probes of `test_connection` produced: both status codes, or a
raised `httpx.RequestError`, or any other exception (with the exception text). -/
inductive ConnAttempt where
  | resp (mainStatus wahaStatus : Nat)
  | reqError (msg : String)
  | otherError (msg : String)

structure ConnData where
  mainEndpoint : Nat
  wahaEndpoint : Nat
  message : String
deriving DecidableEq, Repr

/-- `test_connection()`. -/
def testConnection (att : ConnAttempt) : WahaResponse ConnData :=
  match att with
  | .resp m w =>
    if m == 200 || m == 404 then
      if w == 200 then
        ⟨true, some ⟨m, w, "Connection successful"⟩, none, none⟩
      else if w == 401 || w == 422 then
        ⟨true, some ⟨m, w, "WAHA API found, authentication or session required"⟩, none, none⟩
      else
        ⟨true, some ⟨m, w, "Server reachable"⟩, none, none⟩
    else
      ⟨false, none, some ("Connection failed with status " ++ toString m),
       some "CONNECTION_FAILED"⟩
  | .reqError msg => ⟨false, none, some ("Connection error: " ++ msg), some "CONNECTION_ERROR"⟩
  | .otherError msg => ⟨false, none, some ("Unexpected error: " ++ msg), some "UNKNOWN_ERROR"⟩

/-- One row of the `discover_endpoints` probe table. -/
structure EndpointProbe where
  path : String
  status : Nat
  available : Bool
deriving DecidableEq, Repr

/-- `discover_endpoints()` always returns a success envelope holding the
probe table. -/
def discoverEndpoints (results : List EndpointProbe) : WahaResponse (List EndpointProbe) :=
  ⟨true, some results, none, none⟩

/-- One entry of the upstream `/api/sessions` JSON list. A missing or empty
`name` (falsy in Python) is the empty string; a missing `status` likewise. -/
structure SessionEntry where
  status : String
  name : String
deriving DecidableEq, Repr

/-- The filter both implementations apply: status among WORKING/READY/CONNECTED
and a non-empty name. -/
def isActiveSession (s : SessionEntry) : Bool :=
  (["WORKING", "READY", "CONNECTED"] : List String).contains s.status && s.name != ""

def activeSessionNames (entries : List SessionEntry) : List String :=
  (entries.filter isActiveSession).map (·.name)

/-- What the `/api/sessions` request produced: HTTP 200 with a JSON list,
HTTP 200 with a non-list body, a non-200 status, or a raised exception. -/
inductive SessionsUpstream where
  | ok (entries : List SessionEntry)
  | okNotList
  | httpError (status : Nat)
  | netError (msg : String)

structure ActiveSessionsData where
  active_sessions : List String
  count : Nat
deriving DecidableEq, Repr

/-- `WahaClient.get_active_sessions` (`api/core/waha_client.py`): success
envelope with the filtered names on HTTP 200, error envelope with code
`SESSIONS_ERROR` on any other status, `SESSIONS_REQUEST_ERROR` on exception. -/
def getActiveSessionsClient (att : SessionsUpstream) : WahaResponse ActiveSessionsData :=
  match att with
  | .ok entries =>
    let names := activeSessionNames entries
    ⟨true, some ⟨names, names.length⟩, none, none⟩
  | .okNotList => ⟨true, some ⟨[], 0⟩, none, none⟩
  | .httpError s =>
    ⟨false, none, some ("Failed to get sessions: " ++ toString s), some "SESSIONS_ERROR"⟩
  | .netError msg =>
    ⟨false, none, some ("Error getting sessions: " ++ msg), some "SESSIONS_REQUEST_ERROR"⟩

/-- `WahaAPIClient.get_active_sessions` (`waha_automator.py`): the filtered
name list on HTTP 200, the empty list on any non-200 status or exception. -/
def getActiveSessionsAuto (att : SessionsUpstream) : List String :=
  match att with
  | .ok entries => activeSessionNames entries
  | .okNotList => []
  | .httpError _ => []
  | .netError _ => []

/-- Outcome of one upstream GET/POST carrying a JSON body of type `J` and the
raw response text, or a raised exception. -/
inductive HttpAttempt (J : Type) where
  | resp (status : Nat) (body : J) (text : String)
  | exn (msg : String)

/-- The data of a `get_chat_messages` success: the raw upstream JSON or the
mock dictionary. -/
inductive MsgPayload (J : Type) where
  | raw (j : J)
  | mock (m : MockMessagesResult)

/-- `WahaClient.get_chat_messages(chat_id, limit, offset, ...)`: with
`use_mock` the mock generator's output is wrapped directly (the offset is not
passed on); otherwise HTTP 200 wraps the body, 422 is inspected for the
literal substrings `SCAN_QR_CODE` / `DISCONNECTED`, anything else is
`MESSAGES_ERROR`, and exceptions are `MESSAGES_REQUEST_ERROR`. -/
def getChatMessagesClient {J : Type} (chatId : String) (limit offset : Nat)
    (useMock : Bool) (r : MsgRandom) (att : HttpAttempt J) :
    WahaResponse (MsgPayload J) :=
  if useMock then
    ⟨true, some (.mock (generateMockMessages chatId limit r)), none, none⟩
  else
    match att with
    | .resp status body text =>
      if status == 200 then ⟨true, some (.raw body), none, none⟩
      else if status == 422 && isSubstring "SCAN_QR_CODE".toList text.toList then
        ⟨false, none, some "WhatsApp session needs QR code scan", some "SCAN_QR_REQUIRED"⟩
      else if status == 422 && isSubstring "DISCONNECTED".toList text.toList then
        ⟨false, none, some "WhatsApp session is disconnected", some "SESSION_DISCONNECTED"⟩
      else
        ⟨false, none,
         some ("Failed to get messages: " ++ toString status ++ " - " ++ text),
         some "MESSAGES_ERROR"⟩
    | .exn msg =>
      ⟨false, none, some ("Error getting messages: " ++ msg), some "MESSAGES_REQUEST_ERROR"⟩

/-- The data of a `get_all_contacts` success: raw upstream JSON or the mock
dictionary. -/
inductive ContactsPayload (J : Type) where
  | raw (j : J)
  | mock (m : MockContactsResult)

/-- `WahaClient.get_all_contacts`: mock short-circuit, then
`get_active_sessions`; a failed sessions call becomes `SESSIONS_UNAVAILABLE`,
an empty active list falls back to mock data as a success, otherwise the
contacts request is issued (HTTP 200 wraps the body, anything else is
`CONTACTS_ERROR`, exceptions are `CONTACTS_REQUEST_ERROR`). -/
def getAllContactsClient {J : Type} (limit offset : Nat) (sortBy sortOrder : String)
    (useMock : Bool) (r : ContactRandom) (sessAtt : SessionsUpstream)
    (att : HttpAttempt J) : WahaResponse (ContactsPayload J) :=
  if useMock then
    ⟨true, some (.mock (generateMockContacts limit offset sortBy sortOrder r)), none, none⟩
  else
    let sessions := getActiveSessionsClient sessAtt
    if sessions.success = false then
      ⟨false, none, some "Unable to get active sessions", some "SESSIONS_UNAVAILABLE"⟩
    else
      match sessions.data with
      | some d =>
        if d.active_sessions.isEmpty then
          ⟨true, some (.mock (generateMockContacts limit offset sortBy sortOrder r)), none, none⟩
        else
          match att with
          | .resp status body _ =>
            if status == 200 then ⟨true, some (.raw body), none, none⟩
            else
              ⟨false, none, some ("Failed to get contacts: " ++ toString status),
               some "CONTACTS_ERROR"⟩
          | .exn msg =>
            ⟨false, none, some ("Error getting contacts: " ++ msg),
             some "CONTACTS_REQUEST_ERROR"⟩
      | none =>
        ⟨false, none, some ("Error getting contacts: " ++ "missing data"),
         some "CONTACTS_REQUEST_ERROR"⟩

structure SentMessageData where
  message_id : Option String
  chat_id : String
  message : String
deriving DecidableEq, Repr

/-- `WahaClient.send_message`: HTTP 200 wraps a "sent" record, any other status
is `SEND_MESSAGE_ERROR` with the raw status and body text, exceptions are
`SEND_MESSAGE_REQUEST_ERROR`. -/
def sendMessageClient (chatId message : String) (att : HttpAttempt (Option String)) :
    WahaResponse SentMessageData :=
  match att with
  | .resp status body text =>
    if status == 200 then ⟨true, some ⟨body, chatId, message⟩, none, none⟩
    else
      ⟨false, none,
       some ("Failed to send message: " ++ toString status ++ " - " ++ text),
       some "SEND_MESSAGE_ERROR"⟩
  | .exn msg =>
    ⟨false, none, some ("Error sending message: " ++ msg), some "SEND_MESSAGE_REQUEST_ERROR"⟩

/-! The `SendMessageRequest` validation of `api/routes/send.py` (pydantic
field constraints plus the two `@validator` functions). -/

structure SendMessageRequest where
  chat_id : String
  message : String
  sessionName : String
  type : String
  media_url : Option String
  media_caption : Option String

/-- `v.endswith('@c.us')`, on the underlying character lists. -/
def validateChatId (v : String) : Bool := "@c.us".toList.isSuffixOf v.toList

/-- `message: Field(..., min_length=1, max_length=4096)`. -/
def validateMessageLength (v : String) : Bool :=
  decide (1 ≤ v.length) && decide (v.length ≤ 4096)

/-- `type: Field("text", regex="^(text|image|document|audio|video)$")`. -/
def validateType (v : String) : Bool :=
  (["text", "image", "document", "audio", "video"] : List String).contains v

/-- The `validate_media_url` validator: it returns immediately when the value
is `None`; only a present value is checked, and the check
`message_type != 'text' and not v` can only fire on the empty string. -/
def validateMediaUrl (msgType : String) (v : Option String) : Bool :=
  match v with
  | none => true
  | some u => !(msgType != "text" && u == "")

/-- `media_caption: Field(None, max_length=1024)`. -/
def validateMediaCaption (v : Option String) : Bool :=
  match v with
  | none => true
  | some c => decide (c.length ≤ 1024)

/-- Whether pydantic accepts a `SendMessageRequest` body (the request reaches
the route handler exactly when this holds). -/
def sendRequestValid (req : SendMessageRequest) : Bool :=
  validateChatId req.chat_id && validateMessageLength req.message &&
    validateType req.type && validateMediaUrl req.type req.media_url &&
    validateMediaCaption req.media_caption

/-! The `get_all_chats` endpoint-discovery loop of `waha_automator.py`. -/

/-- What trying one candidate chats endpoint produced. -/
inductive ChatsAttempt (J : Type) where
  | resp (status : Nat) (body : J)
  | reqError

/-- The fixed ordered candidate list the loop walks. -/
def chatEndpoints (baseUrl sessionName : String) : List String :=
  [baseUrl ++ "/api/" ++ sessionName ++ "/chats",
   baseUrl ++ "/api/default/chats",
   baseUrl ++ "/api/chats",
   baseUrl ++ "/chats"]

/-- Result of the loop: the first HTTP-200 body together with the index of the
candidate that delivered it, or the mock fallback. -/
inductive ChatsFetchResult (J : Type) where
  | fromEndpoint (idx : Nat) (body : J)
  | mockFallback
deriving DecidableEq

/-- The loop body of `get_all_chats`: HTTP 200 returns, HTTP 404 tries the next
candidate, any other status breaks out of the loop (falling through to the mock
fallback), and a request exception also tries the next candidate. -/
def tryChatEndpoints {J : Type} (attempts : List (ChatsAttempt J)) (idx : Nat) :
    ChatsFetchResult J :=
  match attempts with
  | [] => .mockFallback
  | .resp status body :: rest =>
    if status == 200 then .fromEndpoint idx body
    else if status == 404 then tryChatEndpoints rest (idx + 1)
    else .mockFallback
  | .reqError :: rest => tryChatEndpoints rest (idx + 1)

/-- `get_all_chats` after session resolution: walk the candidates in order. -/
def getAllChatsTrials {J : Type} (attempts : List (ChatsAttempt J)) : ChatsFetchResult J :=
  tryChatEndpoints attempts 0

/-! Theorems: helper lemmas first, then one theorem per claim with
its witnesses and counterexamples. -/

theorem pySplit_ne_nil (sep : Char) (l : List Char) : pySplit sep l ≠ [] := by
  cases l with
  | nil => simp [pySplit]
  | cons c rest =>
    simp only [pySplit]
    split
    · simp
    · cases h : pySplit sep rest <;> simp

theorem headD_pySplit (sep : Char) (l : List Char) :
    (pySplit sep l).headD [] = l.takeWhile (fun c => c != sep) := by
  induction l with
  | nil => simp [pySplit]
  | cons c rest ih =>
    by_cases hc : (c == sep) = true
    · have hne : (c != sep) = false := by simp [bne, hc]
      simp [pySplit, hc, List.takeWhile, hne]
    · have hcf : (c == sep) = false := by simpa using hc
      have hne : (c != sep) = true := by simp [bne, hcf]
      cases h : pySplit sep rest with
      | nil => exact absurd h (pySplit_ne_nil sep rest)
      | cons s ss =>
        have ihs : s = List.takeWhile (fun c => c != sep) rest := by
          simpa [h] using ih
        simp [pySplit, hcf, h, List.takeWhile, hne, ihs]

theorem pySplit_sep_cons (sep : Char) (l : List Char) :
    pySplit sep (sep :: l) = [] :: pySplit sep l := by
  simp [pySplit]

theorem pySplit_append_no_sep (sep : Char) (l₁ l₂ : List Char)
    (h : ∀ c ∈ l₁, c ≠ sep) :
    pySplit sep (l₁ ++ sep :: l₂) = l₁ :: pySplit sep l₂ := by
  induction l₁ with
  | nil => simp [pySplit_sep_cons]
  | cons c rest ih =>
    have hc : c ≠ sep := h c (by simp)
    have hrest : ∀ x ∈ rest, x ≠ sep := fun x hx => h x (by simp [hx])
    have hcb : (c == sep) = false := by simp [hc]
    have hih := ih hrest
    simp [pySplit, hcb, List.append_eq, hih]

theorem takeWhile_eq_self_of_forall {p : Char → Bool} {l : List Char}
    (h : ∀ c ∈ l, p c = true) : l.takeWhile p = l := by
  induction l with
  | nil => rfl
  | cons c rest ih =>
    simp only [List.takeWhile, h c (by simp)]
    rw [ih fun x hx => h x (by simp [hx])]

theorem insertLe_perm (le : α → α → Bool) (x : α) (l : List α) :
    List.Perm (insertLe le x l) (x :: l) := by
  induction l with
  | nil => exact List.Perm.refl _
  | cons y ys ih =>
    cases hxy : le x y with
    | true => simp [insertLe, hxy]
    | false =>
      have step : List.Perm (y :: insertLe le x ys) (y :: x :: ys) :=
        List.Perm.cons y ih
      have swap : List.Perm (y :: x :: ys) (x :: y :: ys) := List.Perm.swap x y ys
      simpa [insertLe, hxy] using step.trans swap

theorem isort_perm (le : α → α → Bool) (l : List α) :
    List.Perm (isort le l) l := by
  induction l with
  | nil => exact List.Perm.refl _
  | cons x xs ih =>
    exact (insertLe_perm le x (isort le xs)).trans (List.Perm.cons x ih)

theorem isort_length (le : α → α → Bool) (l : List α) :
    (isort le l).length = l.length :=
  (isort_perm le l).length_eq

theorem mem_insertLe {le : α → α → Bool} {x z : α} {l : List α} :
    z ∈ insertLe le x l ↔ z = x ∨ z ∈ l := by
  constructor
  · intro h
    have := (insertLe_perm le x l).mem_iff.mp h
    simpa using this
  · intro h
    apply (insertLe_perm le x l).mem_iff.mpr
    simpa using h

theorem pairwise_insertLe {le : α → α → Bool}
    (htot : ∀ a b, le a b = false → le b a = true)
    (htrans : ∀ a b c, le a b = true → le b c = true → le a c = true)
    {x : α} {l : List α} (hl : l.Pairwise (fun a b => le a b = true)) :
    (insertLe le x l).Pairwise (fun a b => le a b = true) := by
  induction l with
  | nil => simp [insertLe]
  | cons y ys ih =>
    rcases List.pairwise_cons.mp hl with ⟨hy, hys⟩
    cases hxy : le x y with
    | true =>
      simp only [insertLe, hxy, if_true]
      refine List.pairwise_cons.mpr ⟨?_, hl⟩
      intro z hz
      rcases List.mem_cons.mp hz with rfl | hz
      · exact hxy
      · exact htrans x y z hxy (hy z hz)
    | false =>
      simp only [insertLe, hxy, Bool.false_eq_true, if_false]
      refine List.pairwise_cons.mpr ⟨?_, ih hys⟩
      intro z hz
      rcases mem_insertLe.mp hz with hzx | hz
      · rw [hzx]
        exact htot x y hxy
      · exact hy z hz

theorem pairwise_isort {le : α → α → Bool}
    (htot : ∀ a b, le a b = false → le b a = true)
    (htrans : ∀ a b c, le a b = true → le b c = true → le a c = true)
    (l : List α) : (isort le l).Pairwise (fun a b => le a b = true) := by
  induction l with
  | nil => simp [isort]
  | cons x xs ih => exact pairwise_insertLe htot htrans ih

theorem filter_insertLe_pos {le : α → α → Bool} {p : α → Bool} {x : α}
    (hx : p x = true) (hskip : ∀ y, le x y = false → p y = false)
    (l : List α) : (insertLe le x l).filter p = x :: l.filter p := by
  induction l with
  | nil => simp [insertLe, hx]
  | cons y ys ih =>
    cases hxy : le x y with
    | true => simp [insertLe, hxy, List.filter, hx]
    | false =>
      have hpy : p y = false := hskip y hxy
      simp [insertLe, hxy, List.filter, hpy, ih]

theorem filter_insertLe_neg {le : α → α → Bool} {p : α → Bool} {x : α}
    (hx : p x = false) (l : List α) :
    (insertLe le x l).filter p = l.filter p := by
  induction l with
  | nil => simp [insertLe, hx]
  | cons y ys ih =>
    cases hxy : le x y with
    | true => simp [insertLe, hxy, List.filter, hx]
    | false => simp [insertLe, hxy, List.filter, ih]

/-- Stability of the insertion sort: filtering to the elements picked out by a
predicate compatible with the order (an element satisfying the predicate is
never placed after one it could tie with) returns them in original order. -/
theorem filter_isort {le : α → α → Bool} {p : α → Bool}
    (hcomp : ∀ a b, p a = true → le a b = false → p b = false)
    (l : List α) : (isort le l).filter p = l.filter p := by
  induction l with
  | nil => rfl
  | cons x xs ih =>
    simp only [isort]
    cases hx : p x with
    | true =>
      rw [filter_insertLe_pos hx (fun y => hcomp x y hx) (isort le xs), ih]
      simp [List.filter, hx]
    | false =>
      rw [filter_insertLe_neg hx (isort le xs), ih]
      simp [List.filter, hx]

theorem lexLe_refl (l : List Char) : lexLe l l = true := by
  induction l with
  | nil => rfl
  | cons a as ih => simp [lexLe, ih]

theorem lexLe_total (a b : List Char) (h : lexLe a b = false) : lexLe b a = true := by
  induction a generalizing b with
  | nil => simp [lexLe] at h
  | cons x xs ih =>
    cases b with
    | nil => rfl
    | cons y ys =>
      simp only [lexLe] at h ⊢
      rcases lt_trichotomy x y with hxy | rfl | hxy
      · rw [if_pos hxy] at h
        simp at h
      · rw [if_neg (lt_irrefl x), if_neg (lt_irrefl x)] at h ⊢
        exact ih ys h
      · rw [if_pos hxy]

theorem lexLe_trans (a b c : List Char)
    (hab : lexLe a b = true) (hbc : lexLe b c = true) : lexLe a c = true := by
  induction a generalizing b c with
  | nil => rfl
  | cons x xs ih =>
    cases b with
    | nil => simp [lexLe] at hab
    | cons y ys =>
      cases c with
      | nil => simp [lexLe] at hbc
      | cons z zs =>
        simp only [lexLe] at hab hbc ⊢
        rcases lt_trichotomy x y with hxy | rfl | hxy
        · rcases lt_trichotomy y z with hyz | rfl | hyz
          · rw [if_pos (lt_trans hxy hyz)]
          · rw [if_pos hxy]
          · rw [if_neg (lt_asymm hyz), if_pos hyz] at hbc
            simp at hbc
        · rcases lt_trichotomy x z with hxz | rfl | hxz
          · rw [if_pos hxz]
          · rw [if_neg (lt_irrefl x), if_neg (lt_irrefl x)] at hab hbc ⊢
            exact ih ys zs hab hbc
          · rw [if_neg (lt_asymm hxz), if_pos hxz] at hbc
            simp at hbc
        · rw [if_neg (lt_asymm hxy), if_pos hxy] at hab
          simp at hab

theorem sha256_length (msg : List Nat) : (sha256 msg).length = 32 := by
  simp [sha256, wordToBytes]

theorem hmacSha256_length (key msg : List Nat) : (hmacSha256 key msg).length = 32 :=
  sha256_length _

theorem hexCharAux_ne_eqsign (m : Nat) : hexCharAux m ≠ '=' := by
  unfold hexCharAux
  split <;> decide

theorem hexChar_ne_eqsign (n : Nat) : hexChar n ≠ '=' :=
  hexCharAux_ne_eqsign (n % 16)

theorem mem_hexDigest_ne_eqsign {c : Char} {l : List Nat}
    (h : c ∈ hexDigest l) : c ≠ '=' := by
  simp only [hexDigest, List.mem_flatten, List.mem_map] at h
  rcases h with ⟨seg, ⟨b, _, hseg⟩, hc⟩
  rw [← hseg] at hc
  rcases List.mem_cons.mp hc with rfl | hc
  · exact hexChar_ne_eqsign _
  · rcases List.mem_cons.mp hc with rfl | hc
    · exact hexChar_ne_eqsign _
    · simp at hc

theorem hexDigest_length (l : List Nat) : (hexDigest l).length = 2 * l.length := by
  induction l with
  | nil => rfl
  | cons b bs ih =>
    simp only [hexDigest, List.map_cons, List.flatten_cons] at ih ⊢
    simp only [List.length_append, List.length_cons, List.length_nil, ih]
    omega

theorem sigMarker_split : sigMarker = "sha256".toList ++ ['='] := by decide

theorem verify_marker_append (secret payload : List Nat) (rest : List Char) :
    verifyWebhookSignature payload (sigMarker ++ rest) secret =
      (rest.takeWhile (fun c => c != '=') == hexDigest (hmacSha256 secret payload)) := by
  have hpre : sigMarker.isPrefixOf (sigMarker ++ rest) = true :=
    List.isPrefixOf_iff_prefix.mpr (List.prefix_append _ _)
  have hmark : ∀ c ∈ "sha256".toList, c ≠ '=' := by decide
  have hsplit : pySplit '=' (sigMarker ++ rest) =
      "sha256".toList :: pySplit '=' rest := by
    rw [sigMarker_split, List.append_assoc, List.singleton_append]
    exact pySplit_append_no_sep '=' _ rest hmark
  cases hrest : pySplit '=' rest with
  | nil => exact absurd hrest (pySplit_ne_nil '=' rest)
  | cons s ss =>
    have hs : s = rest.takeWhile (fun c => c != '=') := by
      have := headD_pySplit '=' rest
      rw [hrest] at this
      simpa using this
    simp [verifyWebhookSignature, hpre, hsplit, hrest, List.getD_cons_succ,
      List.getD_cons_zero, hs]

theorem verify_accepts_canonical (secret payload : List Nat) :
    verifyWebhookSignature payload (canonicalSignature secret payload) secret = true := by
  rw [canonicalSignature, verify_marker_append]
  have hall : ∀ c ∈ hexDigest (hmacSha256 secret payload),
      (fun c => c != '=') c = true := by
    intro c hc
    simpa [bne] using mem_hexDigest_ne_eqsign hc
  rw [takeWhile_eq_self_of_forall hall]
  simp

theorem verify_rejects_no_marker (secret payload : List Nat) (sig : List Char)
    (h : sigMarker.isPrefixOf sig = false) :
    verifyWebhookSignature payload sig secret = false := by
  simp [verifyWebhookSignature, h]

theorem canonicalSignature_length (secret payload : List Nat) :
    (canonicalSignature secret payload).length = 71 := by
  simp [canonicalSignature, sigMarker, hexDigest_length, hmacSha256_length]

/-- A signature header of the canonical length is accepted exactly when it is
the canonical signature: any same-length corruption is rejected. -/
theorem verify_same_length_iff (secret payload : List Nat) (sig : List Char)
    (hlen : sig.length = (canonicalSignature secret payload).length) :
    (verifyWebhookSignature payload sig secret = true ↔
      sig = canonicalSignature secret payload) := by
  constructor
  · intro hv
    by_cases hpre : sigMarker.isPrefixOf sig = true
    · obtain ⟨t, ht⟩ := List.isPrefixOf_iff_prefix.mp hpre
      rw [← ht] at hv hlen ⊢
      rw [verify_marker_append] at hv
      have heq : t.takeWhile (fun c => c != '=') =
          hexDigest (hmacSha256 secret payload) := by
        exact beq_iff_eq.mp hv
      have hdlen : (hexDigest (hmacSha256 secret payload)).length = 64 := by
        rw [hexDigest_length, hmacSha256_length]
      have htlen : t.length = 64 := by
        rw [canonicalSignature_length] at hlen
        simp only [List.length_append] at hlen
        have : sigMarker.length = 7 := by decide
        omega
      have hprefix := List.takeWhile_prefix (l := t) (fun c => c != '=')
      have : t.takeWhile (fun c => c != '=') = t :=
        hprefix.eq_of_length (by rw [heq, hdlen, htlen])
      rw [canonicalSignature, ← heq, this]
    · have : sigMarker.isPrefixOf sig = false := by
        revert hpre
        cases sigMarker.isPrefixOf sig <;> simp
      rw [verify_rejects_no_marker secret payload sig this] at hv
      cases hv
  · intro h
    rw [h]
    exact verify_accepts_canonical secret payload

/-! Claim theorems. -/

/-- C2 counterexample: a POST body with `event="bogus"` is rejected by the
pydantic regex with HTTP 422 before the handler runs, and even the handler's
own unknown-tag branch raises HTTP 400 `UNKNOWN_EVENT` (re-raised by the
`except HTTPException` arm) — neither is the claimed 200 envelope. -/
theorem c2_webhook_counterexample :
    webhookPost "bogus" false false false HandlerRun.ok = ⟨422, none, none⟩
  ∧ (webhookPost "bogus" false false false HandlerRun.ok).status ≠ 200
  ∧ webhookHandler "bogus" false false false HandlerRun.ok =
      ⟨400, some false, some "UNKNOWN_EVENT"⟩
  ∧ (webhookHandler "bogus" false false false HandlerRun.ok).status ≠ 200 := by
  refine ⟨by decide, by decide, by decide, by decide⟩

/-- C2 (amended): only generic (non-HTTPException) processing failures are
swallowed into an HTTP 200 envelope with `success:false`; an unrecognized
event tag is rejected with HTTP 422 by body validation (and would get HTTP 400
`UNKNOWN_EVENT` from the handler's own branch), and a failed signature check
yields HTTP 403. -/
theorem c2_webhook_status (ev : String) (c p v : Bool) (run : HandlerRun) :
    ((c && p && !v) = false → webhookEventTags.contains ev = true →
        webhookPost ev c p v HandlerRun.raisesExn =
          ⟨200, some false, some "WEBHOOK_PROCESSING_ERROR"⟩
      ∧ webhookPost ev c p v HandlerRun.ok = ⟨200, some true, none⟩)
  ∧ (webhookEventTags.contains ev = false →
      webhookPost ev c p v run = ⟨422, none, none⟩)
  ∧ ((c && p && !v) = false → webhookEventTags.contains ev = false →
      webhookHandler ev c p v run = ⟨400, some false, some "UNKNOWN_EVENT"⟩)
  ∧ ((c && p && !v) = true →
      webhookHandler ev c p v run = ⟨403, some false, some "INVALID_WEBHOOK_SIGNATURE"⟩) := by
  refine ⟨?_, ?_, ?_, ?_⟩
  · intro hsig htag
    have htag' : ev ∈ webhookEventTags := by simpa using htag
    constructor <;> simp [webhookPost, webhookHandler, hsig, htag']
  · intro htag
    have htag' : ev ∉ webhookEventTags := by simpa using htag
    simp [webhookPost, htag']
  · intro hsig htag
    have htag' : ev ∉ webhookEventTags := by simpa using htag
    simp [webhookHandler, hsig, htag']
  · intro hsig
    simp [webhookHandler, hsig]

/-- C2 witness: the amended behavior at concrete inputs. -/
theorem c2_webhook_status_witness :
    webhookPost "message" false false false HandlerRun.raisesExn =
      ⟨200, some false, some "WEBHOOK_PROCESSING_ERROR"⟩
  ∧ webhookPost "message" false false false HandlerRun.ok = ⟨200, some true, none⟩
  ∧ webhookPost "nope" false false false HandlerRun.ok = ⟨422, none, none⟩
  ∧ webhookHandler "nope" false false false HandlerRun.ok =
      ⟨400, some false, some "UNKNOWN_EVENT"⟩
  ∧ webhookHandler "message" true true false HandlerRun.ok =
      ⟨403, some false, some "INVALID_WEBHOOK_SIGNATURE"⟩ := by
  obtain ⟨h1, -, -, -⟩ := c2_webhook_status "message" false false false HandlerRun.ok
  obtain ⟨-, h2, h3, -⟩ := c2_webhook_status "nope" false false false HandlerRun.ok
  obtain ⟨-, -, -, h4⟩ := c2_webhook_status "message" true true false HandlerRun.ok
  obtain ⟨ha, hb⟩ := h1 (by decide) (by decide)
  exact ⟨ha, hb, h2 (by decide), h3 (by decide) (by decide), h4 (by decide)⟩

/-- C5 counterexample: on a non-200 upstream status the FastAPI client's
`get_active_sessions` does not return an empty-list success result; it returns
an error envelope (`success=false`, no data, code `SESSIONS_ERROR`). Only the
CLI automator's variant returns the empty list there. -/
theorem c5_active_sessions_counterexample :
    (getActiveSessionsClient (SessionsUpstream.httpError 500)).success = false
  ∧ (getActiveSessionsClient (SessionsUpstream.httpError 500)).data = none
  ∧ (getActiveSessionsClient (SessionsUpstream.httpError 500)).code = some "SESSIONS_ERROR"
  ∧ getActiveSessionsAuto (SessionsUpstream.httpError 500) = [] :=
  ⟨rfl, rfl, rfl, rfl⟩

/-- C5 (amended): both implementations filter to WORKING/READY/CONNECTED
entries with a non-empty name; the CLI automator returns the plain name list
and the empty list on any failure, while the FastAPI client wraps the names in
a success envelope on HTTP 200 (the empty list is a success, not an error) and
returns an error envelope coded `SESSIONS_ERROR` / `SESSIONS_REQUEST_ERROR` on
a non-200 status / an exception. -/
theorem c5_active_sessions (entries : List SessionEntry) (s : Nat) (msg : String) :
    getActiveSessionsAuto (SessionsUpstream.ok entries) = activeSessionNames entries
  ∧ getActiveSessionsAuto (SessionsUpstream.httpError s) = []
  ∧ getActiveSessionsAuto (SessionsUpstream.netError msg) = []
  ∧ getActiveSessionsAuto SessionsUpstream.okNotList = []
  ∧ (getActiveSessionsClient (SessionsUpstream.ok entries)).success = true
  ∧ (getActiveSessionsClient (SessionsUpstream.ok entries)).data =
      some ⟨activeSessionNames entries, (activeSessionNames entries).length⟩
  ∧ (getActiveSessionsClient (SessionsUpstream.httpError s)).success = false
  ∧ (getActiveSessionsClient (SessionsUpstream.httpError s)).code = some "SESSIONS_ERROR"
  ∧ (getActiveSessionsClient (SessionsUpstream.netError msg)).success = false
  ∧ (getActiveSessionsClient (SessionsUpstream.netError msg)).code =
      some "SESSIONS_REQUEST_ERROR"
  ∧ ((∀ e ∈ entries, isActiveSession e = false) → activeSessionNames entries = []) := by
  refine ⟨rfl, rfl, rfl, rfl, rfl, rfl, rfl, rfl, rfl, rfl, ?_⟩
  intro h
  have hnil : entries.filter isActiveSession = [] := by
    rw [List.filter_eq_nil_iff]
    intro a ha
    simp [h a ha]
  simp [activeSessionNames, hnil]

/-- C5 witness: one upstream list whose only entry is inactive. -/
theorem c5_active_sessions_witness :
    (∀ e ∈ ([⟨"STOPPED", "one"⟩] : List SessionEntry), isActiveSession e = false)
  ∧ getActiveSessionsAuto (SessionsUpstream.ok [⟨"STOPPED", "one"⟩]) =
      activeSessionNames [⟨"STOPPED", "one"⟩]
  ∧ activeSessionNames [⟨"STOPPED", "one"⟩] = [] := by
  obtain ⟨h1, -, -, -, -, -, -, -, -, -, h11⟩ :=
    c5_active_sessions [⟨"STOPPED", "one"⟩] 500 "boom"
  exact ⟨by decide, h1, h11 (by decide)⟩

/-- C6: the claim (and the route's own documentation) says a request with
`type ≠ "text"` and no `media_url` must be rejected before any upstream call,
but the `validate_media_url` validator returns immediately on `None`, so this
request passes validation: the requirement is unenforced for absent values. -/
theorem c6_media_url_not_enforced :
    sendRequestValid ⟨"628123456789@c.us", "hi", "default", "image", none, none⟩ = true
  ∧ (⟨"628123456789@c.us", "hi", "default", "image", none, none⟩ :
      SendMessageRequest).type ≠ "text"
  ∧ (⟨"628123456789@c.us", "hi", "default", "image", none, none⟩ :
      SendMessageRequest).media_url = none := by
  refine ⟨by decide, by decide, rfl⟩

/-- C7: every envelope any client operation constructs satisfies the
invariant: `success=false` implies `data` absent and `error` present, and
`success=true` implies `error` absent. -/
theorem c7_envelope_invariant :
    (∀ att : ConnAttempt, wahaInvariant (testConnection att))
  ∧ (∀ res : List EndpointProbe, wahaInvariant (discoverEndpoints res))
  ∧ (∀ att : SessionsUpstream, wahaInvariant (getActiveSessionsClient att))
  ∧ (∀ (J : Type) (chatId : String) (limit offset : Nat) (useMock : Bool)
       (r : MsgRandom) (att : HttpAttempt J),
       wahaInvariant (getChatMessagesClient chatId limit offset useMock r att))
  ∧ (∀ (J : Type) (limit offset : Nat) (sortBy sortOrder : String) (useMock : Bool)
       (r : ContactRandom) (sessAtt : SessionsUpstream) (att : HttpAttempt J),
       wahaInvariant (getAllContactsClient limit offset sortBy sortOrder useMock r sessAtt att))
  ∧ (∀ (chatId message : String) (att : HttpAttempt (Option String)),
       wahaInvariant (sendMessageClient chatId message att)) := by
  refine ⟨?_, ?_, ?_, ?_, ?_, ?_⟩
  · intro att
    cases att with
    | resp m w =>
      simp only [testConnection]
      split_ifs <;> simp [wahaInvariant]
    | reqError msg => simp [testConnection, wahaInvariant]
    | otherError msg => simp [testConnection, wahaInvariant]
  · intro res
    simp [discoverEndpoints, wahaInvariant]
  · intro att
    cases att <;> simp [getActiveSessionsClient, wahaInvariant]
  · intro J chatId limit offset useMock r att
    cases att <;>
      · simp only [getChatMessagesClient]
        split_ifs <;> simp [wahaInvariant]
  · intro J limit offset sortBy sortOrder useMock r sessAtt att
    cases sessAtt <;> cases att <;>
      · simp only [getAllContactsClient, getActiveSessionsClient]
        split_ifs <;> simp [wahaInvariant]
  · intro chatId message att
    cases att with
    | resp s b t =>
      simp only [sendMessageClient]
      split_ifs <;> simp [wahaInvariant]
    | exn m => simp [sendMessageClient, wahaInvariant]

theorem tryChatEndpoints_skip {J : Type} (pre suffix : List (ChatsAttempt J))
    (h404 : ∀ a ∈ pre, ∃ body, a = ChatsAttempt.resp 404 body) (idx : Nat) :
    tryChatEndpoints (pre ++ suffix) idx = tryChatEndpoints suffix (idx + pre.length) := by
  induction pre generalizing idx with
  | nil => simp [tryChatEndpoints]
  | cons a pre' ih =>
    obtain ⟨b, rfl⟩ := h404 a (by simp)
    have hrest : ∀ x ∈ pre', ∃ body, x = ChatsAttempt.resp 404 body :=
      fun x hx => h404 x (by simp [hx])
    simp only [List.cons_append, tryChatEndpoints]
    norm_num
    rw [ih hrest (idx + 1)]
    congr 1
    omega

/-- C8: `get_all_chats` walks its four candidate endpoints in order: the first
HTTP 200 wins and its position is reported; HTTP 404 moves on to the next
candidate; any other status abandons the remaining candidates (whatever they
would have answered) and falls back to mock data, as does exhausting the
list. -/
theorem c8_endpoint_trials (J : Type) (baseUrl sessionName : String)
    (pre rest : List (ChatsAttempt J)) (b : J) (s : Nat)
    (h404 : ∀ a ∈ pre, ∃ body, a = ChatsAttempt.resp 404 body)
    (hs200 : s ≠ 200) (hs404 : s ≠ 404) :
    chatEndpoints baseUrl sessionName =
      [baseUrl ++ "/api/" ++ sessionName ++ "/chats", baseUrl ++ "/api/default/chats",
       baseUrl ++ "/api/chats", baseUrl ++ "/chats"]
  ∧ getAllChatsTrials (pre ++ ChatsAttempt.resp 200 b :: rest) =
      ChatsFetchResult.fromEndpoint pre.length b
  ∧ getAllChatsTrials (pre ++ ChatsAttempt.resp s b :: rest) =
      ChatsFetchResult.mockFallback
  ∧ getAllChatsTrials pre = ChatsFetchResult.mockFallback := by
  refine ⟨rfl, ?_, ?_, ?_⟩
  · rw [getAllChatsTrials, tryChatEndpoints_skip pre _ h404 0]
    simp [tryChatEndpoints]
  · rw [getAllChatsTrials, tryChatEndpoints_skip pre _ h404 0]
    have h1 : (s == 200) = false := by simp [hs200]
    have h2 : (s == 404) = false := by simp [hs404]
    simp [tryChatEndpoints, h1, h2]
  · have : pre = pre ++ [] := by simp
    rw [getAllChatsTrials, this, tryChatEndpoints_skip pre [] h404 0]
    rfl

/-- C8 witness: a 404 then a 200, and a 404 then a 503, at concrete values. -/
theorem c8_endpoint_trials_witness :
    chatEndpoints "http://localhost:3000" "default" =
      ["http://localhost:3000/api/default/chats", "http://localhost:3000/api/default/chats",
       "http://localhost:3000/api/chats", "http://localhost:3000/chats"]
  ∧ getAllChatsTrials ([ChatsAttempt.resp 404 (0 : Nat)] ++
      ChatsAttempt.resp 200 (5 : Nat) :: [ChatsAttempt.resp 200 (7 : Nat)]) =
      ChatsFetchResult.fromEndpoint 1 5
  ∧ getAllChatsTrials ([ChatsAttempt.resp 404 (0 : Nat)] ++
      ChatsAttempt.resp 503 (5 : Nat) :: [ChatsAttempt.resp 200 (7 : Nat)]) =
      ChatsFetchResult.mockFallback
  ∧ getAllChatsTrials [ChatsAttempt.resp 404 (0 : Nat)] =
      ChatsFetchResult.mockFallback := by
  have h404 : ∀ a ∈ [ChatsAttempt.resp 404 (0 : Nat)], ∃ body, a = ChatsAttempt.resp 404 body := by
    intro a ha
    simp only [List.mem_singleton] at ha
    exact ⟨0, ha⟩
  obtain ⟨h1, h2, h3, h4⟩ := c8_endpoint_trials Nat "http://localhost:3000" "default"
    [ChatsAttempt.resp 404 (0 : Nat)] [ChatsAttempt.resp 200 (7 : Nat)] 5 503
    h404 (by decide) (by decide)
  exact ⟨h1, h2, h3, h4⟩

/-- C10: the mock message generator returns exactly `min(limit, 20)` records —
never more than 20 — its `has_more` flag is true exactly when `limit ≤ 20`, and
the mock path of `get_chat_messages` ignores the offset entirely, so mock
paging can never move past the first 20 messages. -/
theorem c10_mock_messages_cap (chatId : String) (limit : Nat) (r : MsgRandom)
    (J : Type) (offset1 offset2 : Nat) :
    (generateMockMessages chatId limit r).messages.length = min limit 20
  ∧ ((generateMockMessages chatId limit r).has_more = true ↔ limit ≤ 20)
  ∧ (generateMockMessages chatId limit r).messages.length ≤ 20
  ∧ (generateMockMessages chatId limit r).total =
      (generateMockMessages chatId limit r).messages.length
  ∧ (∀ att : HttpAttempt J,
      getChatMessagesClient chatId limit offset1 true r att =
        getChatMessagesClient chatId limit offset2 true r att) := by
  refine ⟨?_, ?_, ?_, rfl, fun att => rfl⟩
  · simp [generateMockMessages]
  · simp only [generateMockMessages, List.length_map, List.length_range,
      decide_eq_true_eq]
    omega
  · simp only [generateMockMessages, List.length_map, List.length_range]
    omega

/-- C1 counterexample: the mock message generator violates the claimed
pagination formula. At `limit = 20`, `offset = 0` its `has_more` is `true`
while the formula `(min(O,total)+L) < total` gives `false`; at `limit = 5`,
`offset = 2` it returns 5 records while the formula
`min(L, total - min(O,total))` gives 3 — the offset is never consulted. -/
theorem c1_mock_pagination_counterexample :
    (generateMockMessages "6281@c.us" 20
        ⟨fun _ => false, fun _ => 0, fun _ => 1, fun _ => 0⟩).has_more = true
  ∧ decide (min 0 (generateMockMessages "6281@c.us" 20
        ⟨fun _ => false, fun _ => 0, fun _ => 1, fun _ => 0⟩).total + 20 <
      (generateMockMessages "6281@c.us" 20
        ⟨fun _ => false, fun _ => 0, fun _ => 1, fun _ => 0⟩).total) = false
  ∧ (generateMockMessages "6281@c.us" 5
        ⟨fun _ => false, fun _ => 0, fun _ => 1, fun _ => 0⟩).messages.length = 5
  ∧ min 5 ((generateMockMessages "6281@c.us" 5
        ⟨fun _ => false, fun _ => 0, fun _ => 1, fun _ => 0⟩).total -
      min 2 (generateMockMessages "6281@c.us" 5
        ⟨fun _ => false, fun _ => 0, fun _ => 1, fun _ => 0⟩).total) = 3 := by
  refine ⟨by decide, by decide, by decide, by decide⟩

/-- C1 (amended): the claimed count/`hasMore` formula holds for the mock
contacts and mock chats generators (`total` being the size of the full
generated collection before slicing); the mock message generator instead
ignores the offset, returns `min(L, 20)` records and sets
`has_more = (L ≤ 20)`. -/
theorem c1_mock_pagination (limit offset : Nat) (h1 : 1 ≤ limit) (h2 : limit ≤ 1000)
    (sortBy sortOrder : String) (rc : ContactRandom) (rch : ChatRandom)
    (chatId : String) (rm : MsgRandom) :
    ((generateMockContacts limit offset sortBy sortOrder rc).contacts.length =
        min limit ((generateMockContacts limit offset sortBy sortOrder rc).total -
          min offset (generateMockContacts limit offset sortBy sortOrder rc).total)
      ∧ (generateMockContacts limit offset sortBy sortOrder rc).hasMore =
          decide (min offset (generateMockContacts limit offset sortBy sortOrder rc).total +
            limit < (generateMockContacts limit offset sortBy sortOrder rc).total))
  ∧ ((generateMockChats limit offset sortBy sortOrder rch).chats.length =
        min limit ((generateMockChats limit offset sortBy sortOrder rch).total -
          min offset (generateMockChats limit offset sortBy sortOrder rch).total)
      ∧ (generateMockChats limit offset sortBy sortOrder rch).hasMore =
          decide (min offset (generateMockChats limit offset sortBy sortOrder rch).total +
            limit < (generateMockChats limit offset sortBy sortOrder rch).total))
  ∧ ((generateMockMessages chatId limit rm).messages.length = min limit 20
      ∧ (generateMockMessages chatId limit rm).has_more = decide (limit ≤ 20)) := by
  refine ⟨⟨?_, rfl⟩, ⟨?_, rfl⟩, ?_, ?_⟩
  · simp [generateMockContacts, List.length_take, List.length_drop]
  · simp [generateMockChats, List.length_take, List.length_drop]
  · simp [generateMockMessages]
  · simp only [generateMockMessages, List.length_map, List.length_range]
    rw [decide_eq_decide]
    omega

/-- C1 witness: the contacts part of the amended claim at `limit = 3`,
`offset = 2`. -/
theorem c1_mock_pagination_witness :
    (1 ≤ 3 ∧ 3 ≤ 1000)
  ∧ (generateMockContacts 3 2 "name" "asc" ⟨fun _ => 0, fun _ => 0⟩).contacts.length =
      min 3 ((generateMockContacts 3 2 "name" "asc" ⟨fun _ => 0, fun _ => 0⟩).total -
        min 2 (generateMockContacts 3 2 "name" "asc" ⟨fun _ => 0, fun _ => 0⟩).total) :=
  ⟨⟨by decide, by decide⟩,
   (c1_mock_pagination 3 2 (by decide) (by decide) "name" "asc" ⟨fun _ => 0, fun _ => 0⟩
     ⟨fun _ => 0, fun _ => 0, fun _ => "G", fun _ => "m", fun _ => 0, fun _ => 0,
      fun _ => 0, fun _ => 0, fun _ => "A", fun _ => "B", fun _ => false⟩
     "6281@c.us" ⟨fun _ => false, fun _ => 0, fun _ => 1, fun _ => 0⟩).1.1⟩

/-- C9: sorting mock contacts by `unreadCount` descending yields a
non-increasing sequence and by `name` ascending a lexicographically
non-decreasing one; both sorts are permutations of the input and stable
(elements with equal keys keep their generation order, witnessed by the
key-filtered sublists being unchanged). -/
theorem c9_mock_sort (l : List Contact) :
    (sortMockContacts "unreadCount" "desc" l).Pairwise
        (fun a b => b.unreadCount ≤ a.unreadCount)
  ∧ (sortMockContacts "name" "asc" l).Pairwise
        (fun a b => lexLe a.name.toList b.name.toList = true)
  ∧ List.Perm (sortMockContacts "unreadCount" "desc" l) l
  ∧ List.Perm (sortMockContacts "name" "asc" l) l
  ∧ (∀ v : Nat, (sortMockContacts "unreadCount" "desc" l).filter
        (fun x => x.unreadCount == v) = l.filter (fun x => x.unreadCount == v))
  ∧ (∀ v : String, (sortMockContacts "name" "asc" l).filter
        (fun x => x.name == v) = l.filter (fun x => x.name == v)) := by
  have hdesc : sortMockContacts "unreadCount" "desc" l =
      isort (fun a b => natKeyLe true a.unreadCount b.unreadCount) l := rfl
  have hasc : sortMockContacts "name" "asc" l =
      isort (fun a b =>
        strKeyLe false (contactStrKey "name" a) (contactStrKey "name" b)) l := rfl
  have hnat_tot : ∀ a b : Contact, natKeyLe true a.unreadCount b.unreadCount = false →
      natKeyLe true b.unreadCount a.unreadCount = true := by
    intro a b h
    simp only [natKeyLe, if_true, decide_eq_false_iff_not, not_le] at h
    simp only [natKeyLe, if_true, decide_eq_true_eq]
    omega
  have hnat_trans : ∀ a b c : Contact,
      natKeyLe true a.unreadCount b.unreadCount = true →
      natKeyLe true b.unreadCount c.unreadCount = true →
      natKeyLe true a.unreadCount c.unreadCount = true := by
    intro a b c hab hbc
    simp only [natKeyLe, if_true, decide_eq_true_eq] at hab hbc ⊢
    omega
  have hstr_tot : ∀ a b : Contact,
      strKeyLe false (contactStrKey "name" a) (contactStrKey "name" b) = false →
      strKeyLe false (contactStrKey "name" b) (contactStrKey "name" a) = true := by
    intro a b h
    exact lexLe_total _ _ h
  have hstr_trans : ∀ a b c : Contact,
      strKeyLe false (contactStrKey "name" a) (contactStrKey "name" b) = true →
      strKeyLe false (contactStrKey "name" b) (contactStrKey "name" c) = true →
      strKeyLe false (contactStrKey "name" a) (contactStrKey "name" c) = true := by
    intro a b c hab hbc
    exact lexLe_trans _ _ _ hab hbc
  refine ⟨?_, ?_, ?_, ?_, ?_, ?_⟩
  · rw [hdesc]
    exact (pairwise_isort hnat_tot hnat_trans l).imp fun h => by
      simpa only [natKeyLe, if_true, decide_eq_true_eq] using h
  · rw [hasc]
    exact (pairwise_isort hstr_tot hstr_trans l).imp fun h => h
  · rw [hdesc]
    exact isort_perm _ l
  · rw [hasc]
    exact isort_perm _ l
  · intro v
    rw [hdesc]
    refine filter_isort ?_ l
    intro a b hpa hle
    have hpa' : (a.unreadCount == v) = true := hpa
    have hle' : decide (b.unreadCount ≤ a.unreadCount) = false := hle
    have ha : a.unreadCount = v := by simpa using hpa'
    have hlt : a.unreadCount < b.unreadCount := by
      have := of_decide_eq_false hle'
      omega
    show (b.unreadCount == v) = false
    rw [beq_eq_false_iff_ne]
    omega
  · intro v
    rw [hasc]
    refine filter_isort ?_ l
    intro a b hpa hle
    have hpa' : (a.name == v) = true := hpa
    have hle' : lexLe a.name.toList b.name.toList = false := hle
    show (b.name == v) = false
    rw [beq_eq_false_iff_ne]
    intro hbv
    have ha : a.name = v := by simpa using hpa'
    have hab : a.name = b.name := by rw [ha, hbv]
    rw [hab, lexLe_refl b.name.toList] at hle'
    exact absurd hle' (by decide)

/-- C4 counterexample: an input containing "terima kasih" does not always get
the thanks template — matching is first-category-wins, and
"Halo terima kasih" also contains the greeting keyword "halo", so the
greeting template is returned. -/
theorem c4_auto_reply_counterexample :
    isSubstring "terima kasih".toList (pyLower "Halo terima kasih").toList = true
  ∧ getAutoResponse "Halo terima kasih" = getResponseTemplate "greeting"
  ∧ getAutoResponse "Halo terima kasih" ≠ getResponseTemplate "thanks" := by
  refine ⟨by decide, by decide, by decide⟩

/-- C4 (amended): the matcher lower-cases the input and scans the categories in
the fixed order greeting, thanks, goodbye, help, status, business, location,
contact, returning the first match's template; an input containing
"terima kasih" whose lower-cased form contains no greeting keyword yields the
thanks template, and an input containing no configured keyword yields the
default template. -/
theorem c4_auto_reply (msg : String) :
    autoResponses.map Prod.fst =
      ["greeting", "thanks", "goodbye", "help", "status", "business", "location", "contact"]
  ∧ (isSubstring "terima kasih".toList (pyLower msg).toList = true →
      (∀ kw ∈ (["hello", "hi", "halo", "hai", "assalamualaikum", "selamat pagi",
                "selamat siang", "selamat sore", "selamat malam"] : List String),
        isSubstring kw.toList (pyLower msg).toList = false) →
      getAutoResponse msg = getResponseTemplate "thanks")
  ∧ ((∀ ck ∈ autoResponses, ∀ kw ∈ ck.2,
        isSubstring kw.toList (pyLower msg).toList = false) →
      getAutoResponse msg = getResponseTemplate "default") := by
  refine ⟨rfl, ?_, ?_⟩
  · intro hth hgr
    have hg : (["hello", "hi", "halo", "hai", "assalamualaikum", "selamat pagi",
        "selamat siang", "selamat sore", "selamat malam"] : List String).any
        (fun kw => isSubstring kw.toList (pyLower msg).toList) = false := by
      rw [List.any_eq_false]
      intro kw hkw
      simp only [Bool.not_eq_true]
      exact hgr kw hkw
    have ht : (["thank", "thanks", "terima kasih", "makasih"] : List String).any
        (fun kw => isSubstring kw.toList (pyLower msg).toList) = true := by
      rw [List.any_eq_true]
      exact ⟨"terima kasih", by simp, hth⟩
    have hfind : autoResponses.find? (fun ck =>
        ck.2.any fun kw => isSubstring kw.toList (pyLower msg).toList) =
        some ("thanks", ["thank", "thanks", "terima kasih", "makasih"]) := by
      rw [autoResponses]
      rw [List.find?_cons_of_neg, List.find?_cons_of_pos]
      · simpa using ht
      · simpa using hg
    have hmatch : getAutoResponse msg = (match autoResponses.find? (fun ck =>
        ck.2.any fun kw => isSubstring kw.toList (pyLower msg).toList) with
      | some ck => getResponseTemplate ck.1
      | none => getResponseTemplate "default") := rfl
    rw [hmatch, hfind]
  · intro hnone
    have hfind : autoResponses.find? (fun ck =>
        ck.2.any fun kw => isSubstring kw.toList (pyLower msg).toList) = none := by
      rw [List.find?_eq_none]
      intro ck hck
      simp only [Bool.not_eq_true]
      rw [List.any_eq_false]
      intro kw hkw
      simp only [Bool.not_eq_true]
      exact hnone ck hck kw hkw
    have hmatch : getAutoResponse msg = (match autoResponses.find? (fun ck =>
        ck.2.any fun kw => isSubstring kw.toList (pyLower msg).toList) with
      | some ck => getResponseTemplate ck.1
      | none => getResponseTemplate "default") := rfl
    rw [hmatch, hfind]

/-- C4 witness: the amended behavior at concrete inputs. -/
theorem c4_auto_reply_witness :
    isSubstring "terima kasih".toList (pyLower "Terima kasih banyak").toList = true
  ∧ getAutoResponse "Terima kasih banyak" = getResponseTemplate "thanks"
  ∧ getAutoResponse "qqq" = getResponseTemplate "default" := by
  obtain ⟨-, h2, -⟩ := c4_auto_reply "Terima kasih banyak"
  obtain ⟨-, -, h3⟩ := c4_auto_reply "qqq"
  exact ⟨by decide, h2 (by decide) (by decide), h3 (by decide)⟩

/-- C3: the webhook signature check accepts
`"sha256=" ++ hex(HMAC_SHA256(secret, payload))`; it rejects any signature not
carrying the `sha256=` marker; changing any single character of the signature
is rejected (a same-length header is accepted only when it is exactly the
canonical signature); and a payload whose hex digest no longer matches is
rejected. -/
theorem c3_signature_check (secret payload : List Nat) :
    verifyWebhookSignature payload (canonicalSignature secret payload) secret = true
  ∧ (∀ sig : List Char, sigMarker.isPrefixOf sig = false →
      verifyWebhookSignature payload sig secret = false)
  ∧ (∀ (i : Nat) (c : Char), i < (canonicalSignature secret payload).length →
      c ≠ (canonicalSignature secret payload).getD i ' ' →
      verifyWebhookSignature payload
        ((canonicalSignature secret payload).set i c) secret = false)
  ∧ (∀ payload' : List Nat,
      hexDigest (hmacSha256 secret payload') ≠ hexDigest (hmacSha256 secret payload) →
      verifyWebhookSignature payload' (canonicalSignature secret payload) secret = false) := by
  refine ⟨verify_accepts_canonical secret payload,
    verify_rejects_no_marker secret payload, ?_, ?_⟩
  · intro i c hi hc
    cases hv : verifyWebhookSignature payload
        ((canonicalSignature secret payload).set i c) secret with
    | false => rfl
    | true =>
      exfalso
      have hlen : ((canonicalSignature secret payload).set i c).length =
          (canonicalSignature secret payload).length := List.length_set _ _ _
      have heq := (verify_same_length_iff secret payload _ hlen).mp hv
      have hi2 : i < ((canonicalSignature secret payload).set i c).length := by
        rw [hlen]
        exact hi
      have h1 : ((canonicalSignature secret payload).set i c).getD i ' ' = c := by
        rw [List.getD_eq_getElem _ _ hi2]
        exact List.getElem_set_self hi2
      rw [heq] at h1
      exact hc h1.symm
  · intro payload' hne
    rw [canonicalSignature, verify_marker_append]
    have hall : ∀ ch ∈ hexDigest (hmacSha256 secret payload),
        (fun c => c != '=') ch = true := by
      intro ch hch
      simpa [bne] using mem_hexDigest_ne_eqsign hch
    rw [takeWhile_eq_self_of_forall hall]
    exact beq_eq_false_iff_ne.mpr (Ne.symm hne)

set_option maxRecDepth 1000000 in
/-- C3 witness: the signature check at a concrete secret and payload, with a
corrupted first character and a changed payload byte. -/
theorem c3_signature_check_witness :
    verifyWebhookSignature [98, 111, 100, 121]
        (canonicalSignature [107, 101, 121] [98, 111, 100, 121]) [107, 101, 121] = true
  ∧ verifyWebhookSignature [98, 111, 100, 121] ['x'] [107, 101, 121] = false
  ∧ verifyWebhookSignature [98, 111, 100, 121]
        ((canonicalSignature [107, 101, 121] [98, 111, 100, 121]).set 0 'x')
        [107, 101, 121] = false
  ∧ verifyWebhookSignature [120]
        (canonicalSignature [107, 101, 121] [98, 111, 100, 121]) [107, 101, 121] = false := by
  have T := c3_signature_check [107, 101, 121] [98, 111, 100, 121]
  refine ⟨T.1, T.2.1 ['x'] (by decide), ?_, ?_⟩
  · exact T.2.2.1 0 'x' (by rw [canonicalSignature_length]; omega) (by decide)
  · exact T.2.2.2 [120] (by decide)

end Waha
